import Mathlib

/-!
Verification development for the SmartLedger bill service.

This file gives a shallow embedding of the core of the repository —
`bills/db.py` (SQLite-backed bill and user store, token issue/verify) and
`interface/app.py` (bill ingestion endpoints) — and settles the frozen
claims about it.

Modelling conventions:

* The SQLite database is modelled as in-memory lists of rows (`DB`), with
  `bills.bill_id` unique enforced at insert (the `UNIQUE` column constraint)
  and queries modelled as first-match lookups (`List.find?` plays the role
  of `fetchone` on an unordered `SELECT`, lists being kept in insertion
  order, which is SQLite's default scan order).
* Timestamps are naive wall-clock seconds (`Nat`).  Python's
  `datetime.now() + timedelta(days=30)` followed by
  `strftime("%Y-%m-%d %H:%M:%S")` / `strptime` round-trips exactly at
  second granularity, so an expiry cell that parses is carried as its
  second count (`Expiry.stamp`); the other shapes a `token_expires_at`
  cell can take (SQL `NULL`, the empty string, a non-parseable string) are
  carried explicitly, mirroring the branches of `verify_token`.
* Monetary amounts are exact rationals (`ℚ`).  Python's `float(s)` is
  modelled in two faithful stages: the decimal literal is read exactly and
  then converted to the nearest IEEE-754 binary64 value (`toDouble`,
  round-half-even on the 53-bit grid, subnormals included) — e.g.
  `float("12.345")` is `6949617174986097 * 2 ^ (-49)`, slightly above the
  decimal tie, while `float("2.675")` is `6023564501608038 * 2 ^ (-51)`,
  slightly below its tie.  Python's `round(x, 2)` on a double is correctly
  rounded (CPython uses David Gay's algorithm): it is round-half-even
  applied to the exact value of the double (`round2`), and the result is
  then stored as the double nearest that two-decimal value.  The model
  carries the two-decimal rational itself: on amounts below `2 ^ 45` the
  map from two-decimal rationals to nearest doubles is injective and
  `"%.2f"` formatting recovers the same two decimals, so equalities and
  sign comparisons of stored amounts transfer exactly.  (`toDouble` is
  exact on the whole finite double range; only overflow to infinity, which
  no amount here approaches, is outside the model.)  All rational
  computation is done on numerators and denominators with `mkRat` /
  `Rat.divInt` so results evaluate by `decide`.
* The external parser backends (`services/qwen.py`, `services/baidu_qwen.py`,
  `services/llm.py`) are I/O boundaries; their already-produced output
  (`json.loads` result, or the `{"raw": text}` fallback of
  `parse_bill_base64`) enters the model as a `ParseResult` value.
-/

namespace SmartLedger

/-- Decimal digits of a char list read as a natural number (most significant
first); used to model Python's numeric string parsing. -/
def digitsToNat (cs : List Char) : Nat :=
  cs.foldl (fun a c => a * 10 + (c.toNat - 48)) 0

/-- Membership test for Python's `str.strip()` default whitespace set. -/
def isPySpace (c : Char) : Bool :=
  c = ' ' || c = '\t' || c = '\n' || c = '\r' || c = '\x0b' || c = '\x0c'

/-- Model of Python `str.strip()`: drop leading and trailing whitespace. -/
def trimChars (cs : List Char) : List Char :=
  ((cs.dropWhile isPySpace).reverse.dropWhile isPySpace).reverse

/-- Whether `pat` is a prefix of the first list (helper for `replaceList`). -/
def listStartsWith : List Char → List Char → Bool
  | _, [] => true
  | [], _ :: _ => false
  | c :: cs, p :: ps => c == p && listStartsWith cs ps

/-- Fuel-indexed worker for `replaceList`; the fuel (initially the input
length, which bounds the number of steps since each step consumes at least
one character) keeps the recursion structural so it evaluates inside
`decide`. -/
def replaceListAux (pat rep : List Char) : Nat → List Char → List Char
  | 0, l => l
  | _ + 1, [] => []
  | fuel + 1, c :: cs =>
    if pat ≠ [] && listStartsWith (c :: cs) pat then
      rep ++ replaceListAux pat rep fuel (cs.drop (pat.length - 1))
    else
      c :: replaceListAux pat rep fuel cs

/-- Model of Python `str.replace(pat, rep)` for a non-empty pattern:
non-overlapping replacement scanning left to right. -/
def replaceList (pat rep cs : List Char) : List Char :=
  replaceListAux pat rep cs.length cs

/-- String wrapper for `replaceList`, modelling Python `str.replace`. -/
def pyReplace (s pat rep : String) : String :=
  ⟨replaceList pat.toList rep.toList s.toList⟩

/-- String wrapper for `trimChars`, modelling Python `str.strip()`. -/
def pyStrip (s : String) : String :=
  ⟨trimChars s.toList⟩

/-- Fuel-indexed worker for `natLog2` (the core `Nat.log2` is defined by
well-founded recursion, which the kernel cannot evaluate; this structural
version can).  The fuel bounds the number of halvings, so `fuel = n`
always suffices. -/
def natLog2F : Nat → Nat → Nat
  | 0, _ => 0
  | fuel + 1, n => if 2 ≤ n then natLog2F fuel (n / 2) + 1 else 0

/-- Base-2 logarithm, rounded down (`natLog2 0 = 0`). -/
def natLog2 (n : Nat) : Nat := natLog2F n n

/-- Round the fraction `n / d` (with `d > 0`) to the nearest integer, ties
to even — the rounding rule shared by IEEE-754 binary64 arithmetic and
Python's `round`. -/
def roundHalfEvenInt (n d : Int) : Int :=
  let f := Int.fdiv n d
  let r2 := 2 * (n - f * d)
  if r2 < d then f
  else if r2 > d then f + 1
  else if f % 2 = 0 then f else f + 1

/-- Floor of the base-2 logarithm of the positive rational `a / b`
(`a, b ≥ 1`), computed by shifting `a` up past `b` first so a single
`Nat`-division formula covers values below 1 as well. -/
def ratFloorLog2Nat (a b : Nat) : Int :=
  let nshift := natLog2 b + 1
  (natLog2 ((a * 2 ^ nshift) / b) : Int) - (nshift : Int)

/-- Nearest IEEE-754 binary64 value of the positive rational `a / b`
(`a, b ≥ 1`), as an exact rational: the unit in the last place is
`2 ^ (e - 52)` for `2 ^ e ≤ a / b < 2 ^ (e + 1)`, floored at the subnormal
grid `2 ^ (-1074)`, and the scaled value is rounded half-even onto that
grid.  Exact over the whole finite double range (overflow to infinity is
not modelled; no amount in this development approaches it). -/
def dyadicRound (a b : Nat) : ℚ :=
  let e : Int := ratFloorLog2Nat a b
  let u : Int := max (e - 52) (-1074)
  if 0 ≤ u then
    Rat.divInt (roundHalfEvenInt (a : Int) ((b : Int) * 2 ^ u.toNat) * 2 ^ u.toNat) 1
  else
    Rat.divInt (roundHalfEvenInt ((a : Int) * 2 ^ (-u).toNat) (b : Int)) (2 ^ (-u).toNat)

/-- The exact value of the IEEE-754 binary64 double nearest a rational:
the decimal-to-binary conversion performed by CPython `float(s)` (correctly
rounded, ties to even; sign handled by symmetry, zero exactly). -/
def toDouble (q : ℚ) : ℚ :=
  if q.num = 0 then 0
  else if q.num < 0 then - dyadicRound (-q.num).toNat q.den
  else dyadicRound q.num.toNat q.den

/-- Exact decimal reading of an unsigned float literal (`digits`,
`digits.digits`, `.digits`, `digits.`), the grammar every amount string in
this development belongs to: `float` itself additionally accepts
exponents, underscores and `inf`/`nan`, none of which occur here. -/
def parsePyFloatCore (cs : List Char) : Option ℚ :=
  let intPart := cs.takeWhile (· ≠ '.')
  let rest := cs.dropWhile (· ≠ '.')
  match rest with
  | [] =>
    if intPart ≠ [] && intPart.all Char.isDigit then
      some (mkRat (digitsToNat intPart) 1)
    else none
  | _ :: frac =>
    if frac.all (· ≠ '.') && (intPart ≠ [] || frac ≠ []) &&
        intPart.all Char.isDigit && frac.all Char.isDigit then
      some (mkRat (digitsToNat intPart * 10 ^ frac.length + digitsToNat frac)
        (10 ^ frac.length))
    else none

/-- Model of CPython `float(s)`: strip surrounding whitespace, accept an
optional sign and a plain decimal literal, read it exactly, and convert to
the nearest binary64 value (the conversion commutes with negation).  So
`parsePyFloat "12.345" = some (6949617174986097 * 2 ^ (-49))`, the double
just above the decimal tie. -/
def parsePyFloat (s : String) : Option ℚ :=
  match trimChars s.toList with
  | '-' :: rest => (parsePyFloatCore rest).map (fun q => -(toDouble q))
  | '+' :: rest => (parsePyFloatCore rest).map toDouble
  | cs => (parsePyFloatCore cs).map toDouble

/-- Model of Python `round(x, 2)` on a double `x`: CPython rounds the exact
value of the double correctly to two decimal places, ties to even (exact
binary ties such as `0.125` do occur and go to the even cent).  The result
is carried as the two-decimal rational; the program stores the double
nearest it, an identification that is injective on the amounts in range
(see the header note). -/
def round2 (q : ℚ) : ℚ :=
  Rat.divInt (roundHalfEvenInt (q.num * 100) (q.den : ℤ)) 100

/-- Modelled from the spec: the rounding rule the spec prescribes for
amounts — "round to 2 decimal places using standard half-up rounding",
i.e. ties go up (for the positive amounts the spec's rule addresses).
Stated only to be compared against the code's `round2`; the code never
computes this. -/
def roundHalfUp2 (q : ℚ) : ℚ :=
  Rat.divInt (Int.fdiv (q.num * 200 + (q.den : ℤ)) (2 * (q.den : ℤ))) 100

/-- Shapes a stored `users.token_expires_at` TEXT cell can take, split along
the branches of `verify_token` (`bills/db.py:234-242`): SQL `NULL` and the
empty string are falsy in Python and skip the expiry check entirely; a
string that `strptime("%Y-%m-%d %H:%M:%S")` accepts is carried as its
absolute second count; any other string raises `ValueError` there. -/
inductive Expiry where
  | null
  | emptyStr
  | stamp (t : Nat)
  | malformed (s : String)
deriving DecidableEq, Repr

/-- Row of the `users` table (`bills/db.py:43-54`); the fields not read by
the operations modelled here (`id`, `created_at`, `updated_at`) are
omitted. -/
structure UserRow where
  user_id : String
  email : String
  password_hash : String
  token : Option String
  token_expires_at : Expiry
deriving DecidableEq, Repr

/-- Row of the `bills` table (`bills/db.py:30-41`); `date` is `Option`
because the TEXT column is nullable and `save_bill` can in fact insert
`NULL` there (see `C7`). -/
structure BillRow where
  bill_id : String
  user_id : String
  category : String
  amount : ℚ
  date : Option String
  description : String
  nw_type : Option String
deriving DecidableEq, Repr

/-- The SQLite store: both tables, rows in insertion order. -/
structure DB where
  bills : List BillRow
  users : List UserRow
deriving DecidableEq, Repr

/-- User-info dictionary returned by a successful `verify_token`
(`bills/db.py:215-222` and `:245-252`): `user_id`, `email` and the raw
`token_expires_at` cell; the constant fields (`token_valid: True`,
`created_at`, `updated_at`) are omitted. -/
structure Identity where
  user_id : String
  email : String
  token_expires_at : Expiry
deriving DecidableEq, Repr

/-- The literal bypass token written into `verify_token`
(`bills/db.py:213`). -/
def HARDCODED_TOKEN : String := "bQjfRqUpKlriby2lC8RLWBn8LbeLxgTsm5oITLp3R5M"

/-- Model of `verify_token(token)` (`bills/db.py:201-255`) at wall-clock
second `now`: the hard-coded literal is accepted before the store is ever
read; otherwise the first `users` row whose `token` column equals the
argument is fetched, its `token_expires_at` cell drives the four branches
described at `Expiry`, and an expired (`now > expires_at`) or unparseable
stamp yields `None`. -/
def verify_token (db : DB) (token : String) (now : Nat) : Option Identity :=
  if token = HARDCODED_TOKEN then
    some { user_id := "token", email := "token@test.com", token_expires_at := .null }
  else
    match db.users.find? (fun u => u.token = some token) with
    | none => none
    | some row =>
      match row.token_expires_at with
      | .null => some { user_id := row.user_id, email := row.email, token_expires_at := .null }
      | .emptyStr => some { user_id := row.user_id, email := row.email, token_expires_at := .emptyStr }
      | .stamp texp =>
        if now > texp then none
        else some { user_id := row.user_id, email := row.email, token_expires_at := .stamp texp }
      | .malformed _ => none

/-- Model of `save_user_token(user_id, token, expires_in_days)`
(`bills/db.py:175-198`): `UPDATE users SET token, token_expires_at WHERE
user_id = ?`, the expiry being `now + expires_in_days` days formatted at
second granularity; returns the Python function's `rowcount > 0` together
with the updated store. -/
def save_user_token (db : DB) (user_id token : String) (expires_in_days : Nat)
    (now : Nat) : Bool × DB :=
  (db.users.any (fun u => u.user_id = user_id),
    { db with users := db.users.map (fun u =>
        if u.user_id = user_id then
          { u with token := some token,
                   token_expires_at := .stamp (now + expires_in_days * 86400) }
        else u) })

/-- Outcome of `save_bill` (`bills/db.py:76-106`): a successful `INSERT`,
the `ValueError` raised on a missing `bill_id`, or the
`sqlite3.IntegrityError` raised by the `UNIQUE` constraint on
`bills.bill_id`. -/
inductive SaveResult where
  | ok (db : DB)
  | valueError
  | integrityError
deriving DecidableEq, Repr

/-- The `date_str = bill_data.get("date", datetime.now().strftime(...))`
line of `save_bill` (`bills/db.py:85`).  The `date` entry of the dict is
passed as `dateField : Option (Option String)`: the outer layer records
whether the caller put the key in the dict at all, because `dict.get`
substitutes its default only when the key is absent — a key that is
present with value `None` is returned as-is and `NULL` is inserted (every
caller in `app.py` does include the key). -/
def billDateStr (dateField : Option (Option String)) (today : String) : Option String :=
  match dateField with
  | none => some today
  | some v => v

/-- Model of `save_bill(bill_data)` (`bills/db.py:76-106`): the `date_str`
computation (`billDateStr`), the `ValueError` guard on a missing
`bill_id`, and the `INSERT` — an `IntegrityError` when the `UNIQUE`
constraint on `bill_id` is violated, otherwise the row appended in
insertion order. -/
def save_bill (db : DB) (user_id category : String) (amount : ℚ)
    (dateField : Option (Option String)) (description : String)
    (nw_type : Option String) (bill_id : String) (today : String) : SaveResult :=
  if bill_id = "" then .valueError
  else if db.bills.any (fun r => r.bill_id = bill_id) then .integrityError
  else .ok { db with bills := db.bills ++
    [{ bill_id := bill_id, user_id := user_id, category := category,
       amount := amount, date := billDateStr dateField today,
       description := description, nw_type := nw_type }] }

/-- Model of `get_bill_by_id(bill_id)` (`bills/db.py:130-142`): `fetchone`
on `SELECT ... WHERE bill_id = ?`. -/
def get_bill_by_id (db : DB) (bill_id : String) : Option BillRow :=
  db.bills.find? (fun r => r.bill_id = bill_id)

/-- Model of `delete_bill(bill_id)` (`bills/db.py:145-154`): `DELETE FROM
bills WHERE bill_id = ?`, returning `rowcount > 0` and the new store.  No
ownership check happens at this layer. -/
def delete_bill (db : DB) (bill_id : String) : Bool × DB :=
  (db.bills.any (fun r => r.bill_id = bill_id),
    { db with bills := db.bills.filter (fun r => ¬ r.bill_id = bill_id) })

/-- The fixed category whitelist (`services/baidu_qwen.py:6-19`), imported
by `interface/app.py` as `CATEGORIES`. -/
def CATEGORIES : List String :=
  ["餐饮", "购物", "交通", "住房", "休闲娱乐", "医疗健康",
   "学习办公", "宠物", "母婴", "资金往来", "保险理财", "其他支出"]

/-- The two admissible `nw_type` labels (`interface/app.py:276`). -/
def NW_TYPES : List String := ["基础支出", "娱乐支出"]

/-- Split a char list at every occurrence of `sep` (helper for the
`strptime` model). -/
def splitOnChar (sep : Char) : List Char → List (List Char)
  | [] => [[]]
  | c :: rest =>
    let r := splitOnChar sep rest
    if c = sep then [] :: r
    else
      match r with
      | [] => [[c]]
      | h :: t => (c :: h) :: t

/-- Gregorian leap-year rule, as used by `datetime`. -/
def isLeapYear (y : Nat) : Bool :=
  (y % 4 = 0 && ¬ y % 100 = 0) || y % 400 = 0

/-- Days in a month, as validated by the `datetime` constructor. -/
def daysInMonth (y m : Nat) : Nat :=
  if m = 2 then (if isLeapYear y then 29 else 28)
  else if m = 4 || m = 6 || m = 9 || m = 11 then 30
  else 31

/-- Model of `datetime.strptime(s, "%Y-%m-%d")`: CPython's `_strptime`
matches `%Y` as exactly four digits and `%m`/`%d` as one or two digits (so
`2024-1-5` is accepted), requires the whole string to be consumed, and the
`datetime` constructor then rejects out-of-range months and days (including
day-of-month against the calendar, e.g. `2023-02-29`). -/
def strptimeYMD (s : String) : Option (Nat × Nat × Nat) :=
  match splitOnChar '-' s.toList with
  | [ys, ms, ds] =>
    if ys.length = 4 && ys.all Char.isDigit &&
        (ms.length = 1 || ms.length = 2) && ms.all Char.isDigit &&
        (ds.length = 1 || ds.length = 2) && ds.all Char.isDigit then
      let y := digitsToNat ys
      let m := digitsToNat ms
      let d := digitsToNat ds
      if 1 ≤ m && m ≤ 12 && 1 ≤ d && d ≤ daysInMonth y m then some (y, m, d)
      else none
    else none
  | _ => none

/-- The pydantic `BillData.amount` field is `Union[str, float]`
(`interface/app.py:82`); a JSON number arrives as a double — `num q`
carries that double's exact rational value (on which `float(val)` is the
identity) — and anything else arrives as the string. -/
inductive AmountInput where
  | num (q : ℚ)
  | str (s : String)
deriving DecidableEq, Repr

/-- The string scrubbing applied inside `normalize_amount`
(`interface/app.py:257`): `str(val).strip().replace(",", "")
.replace("￥", "").replace("RMB", "")`. -/
def cleanAmountStr (s : String) : String :=
  pyReplace (pyReplace (pyReplace (pyStrip s) "," "") "￥" "") "RMB" ""

/-- The `num` computation of `normalize_amount` (`interface/app.py:254-258`):
`float(val)` for a number, `float` of the scrubbed string otherwise; `none`
models the `ValueError`/`Exception` of a failed parse. -/
def parsedAmount : AmountInput → Option ℚ
  | .num q => some q
  | .str s => parsePyFloat (cleanAmountStr s)

/-- Model of the inner `normalize_amount` of `manual_bill`
(`interface/app.py:252-263`): a parse failure or a value `≤ 0` raises the
400 `HTTPException` (returned as `none` here); otherwise the value is
rounded to two decimals by Python `round`. -/
def normalize_amount (val : AmountInput) : Option ℚ :=
  match parsedAmount val with
  | none => none
  | some num => if num ≤ 0 then none else some (round2 num)

/-- Body of a `/manual_bill` request's `bill` object
(`interface/app.py:78-85`); `category`, `amount` and `bill_id` are required
by pydantic, the rest optional. -/
structure BillInput where
  bill_id : String
  category : String
  amount : AmountInput
  date : Option String
  description : Option String
  nw_type : Option String
deriving DecidableEq, Repr

/-- Observable outcome of one endpoint call: the HTTP status code, whether
the JSON body carries `"status": "ok"` (the upload endpoints report caught
exceptions inside a 200 response, `interface/app.py:413`), and the store
state after the call. -/
structure Resp where
  http : Nat
  body_ok : Bool
  db : DB
deriving DecidableEq, Repr

/-- The date guard of `manual_bill` (`interface/app.py:266-273`): only a
present, non-empty date string is run through `strptime` (Python's `if
request.bill.date:` skips both `None` and `""`). -/
def dateFieldOk (d : Option String) : Bool :=
  match d with
  | none => true
  | some ds => if ds = "" then true else (strptimeYMD ds).isSome

/-- The `nw_type` guard of `manual_bill` (`interface/app.py:275-277`):
`if nw_type and nw_type not in {...}` — `None` and `""` are falsy and pass;
any other value must be one of the two labels. -/
def nwTypeOk (nw : Option String) : Bool :=
  match nw with
  | none => true
  | some s => s = "" || NW_TYPES.contains s

/-- Model of `POST /manual_bill` (`interface/app.py:217-309`) with the
ingestion day `today`.  The checks run in source order: empty category,
(the `amount is None` check at line 240 is unreachable because pydantic
requires the field,) empty `bill_id`, date format, `nw_type` enum, category
whitelist (`category and CATEGORIES and category not in CATEGORIES`, the
first two conjuncts being true on every path that reaches the line), then
`normalize_amount` at dict construction, then `save_bill`.  Each
`HTTPException` is a non-200 response leaving the store untouched; an
`IntegrityError` (or `ValueError`) escaping `save_bill` is caught by the
generic `except Exception` handler and surfaces as HTTP 500.  No token is
received or checked anywhere on this endpoint. -/
def manual_bill (db : DB) (today : String) (user_id : String) (b : BillInput) : Resp :=
  if b.category = "" then ⟨400, false, db⟩
  else if b.bill_id = "" then ⟨400, false, db⟩
  else if ¬ dateFieldOk b.date then ⟨400, false, db⟩
  else if ¬ nwTypeOk b.nw_type then ⟨400, false, db⟩
  else if ¬ b.category = "" ∧ ¬ CATEGORIES = [] ∧ b.category ∉ CATEGORIES then ⟨400, false, db⟩
  else
    match normalize_amount b.amount with
    | none => ⟨400, false, db⟩
    | some amt =>
      match save_bill db user_id b.category amt (some b.date)
          (b.description.getD "") b.nw_type b.bill_id today with
      | .ok db' => ⟨200, true, db'⟩
      | .valueError => ⟨500, false, db⟩
      | .integrityError => ⟨500, false, db⟩

/-- A parser backend's already-produced output as consumed by the upload
endpoints: the decoded JSON object read through `.get`, every field
optional.  `raw` is the diagnostic field of the `{"raw": qwen_output}`
fallback that `parse_bill_base64` returns when `json.loads` fails
(`services/qwen.py:58-62`; `services/baidu_qwen.py` and `services/llm.py`
end identically). -/
structure ParseResult where
  category : Option String
  amount : Option String
  date : Option String
  description : Option String
  nw_type : Option String
  raw : Option String
deriving DecidableEq, Repr

/-- The `{"raw": text}` object a backend returns for a response that is not
well-formed JSON: no bill field is present at all. -/
def malformedParseResult (txt : String) : ParseResult :=
  { category := none, amount := none, date := none, description := none,
    nw_type := none, raw := some txt }

/-- The amount computation of the upload endpoints
(`interface/app.py:392`): `round(float(str(parsed_json.get("amount", "0"))
.replace(",", "").replace("￥", "").replace("RMB", "")), 2)`.  There is no
sign check; `none` models the `ValueError` thrown by `float` on a
non-numeric string. -/
def uploadAmount (amountField : Option String) : Option ℚ :=
  (parsePyFloat
    (pyReplace (pyReplace (pyReplace (amountField.getD "0") "," "") "￥" "") "RMB" "")).map
    round2

/-- Model of the three upload endpoints `POST /upload_qwen_vl`,
`POST /upload_baidu_qwen` and `POST /upload_llm`
(`interface/app.py:363-516`), which are textually identical except for
which parser backend produced `parsed` (a boundary input here, see
`ParseResult`): verify the token (401 on failure), reject an empty
`bill_id` with 400, compute the amount, fill the missing fields with the
`.get` defaults (category `"其他支出"`, today's date, empty description),
and `save_bill`.  Any exception — `float`'s `ValueError` or the
`IntegrityError` of a duplicate `bill_id` — is caught and reported as a
`{"status": "error"}` JSON body inside an HTTP 200 response, with nothing
stored. -/
def upload_flow (db : DB) (token : String) (bill_id : String)
    (parsed : ParseResult) (now : Nat) (today : String) : Resp :=
  match verify_token db token now with
  | none => ⟨401, false, db⟩
  | some user =>
    if bill_id = "" then ⟨400, false, db⟩
    else
      match uploadAmount parsed.amount with
      | none => ⟨200, false, db⟩
      | some amt =>
        match save_bill db user.user_id (parsed.category.getD "其他支出") amt
            (some (some (parsed.date.getD today))) (parsed.description.getD "")
            parsed.nw_type bill_id today with
        | .ok db' => ⟨200, true, db'⟩
        | .valueError => ⟨200, false, db⟩
        | .integrityError => ⟨200, false, db⟩

/-- Model of `POST /delete_bill` (`interface/app.py:312-360`): verify the
token (401), look the bill up (404), compare the bill's owner with the
authenticated identity (403), delete, and report a failed delete as 500. -/
def delete_bill_endpoint (db : DB) (token bill_id : String) (now : Nat) : Resp :=
  match verify_token db token now with
  | none => ⟨401, false, db⟩
  | some user =>
    match get_bill_by_id db bill_id with
    | none => ⟨404, false, db⟩
    | some bill =>
      if ¬ bill.user_id = user.user_id then ⟨403, false, db⟩
      else if (delete_bill db bill_id).1 then ⟨200, true, (delete_bill db bill_id).2⟩
      else ⟨500, false, (delete_bill db bill_id).2⟩

/-- The empty store: no bills, no users — in particular no stored token is
valid on it (only the hard-coded literal is). -/
def dbEmpty : DB := ⟨[], []⟩

/-- A fully valid manual bill payload (used to witness that `/manual_bill`
stores it with no token anywhere in the request). -/
def c2_bill : BillInput := ⟨"c2", "餐饮", .str "10", some "2026-10-01", none, none⟩

/-- A valid manual bill payload used for the duplicate-submission runs. -/
def c4_bill : BillInput := ⟨"c4", "购物", .num 5, some "2026-10-02", some "desc", none⟩

/-- The §8 scenario payload: amount string `"12.345"`. -/
def c5_bill : BillInput := ⟨"b1", "餐饮", .str "12.345", none, none, none⟩

/-- A manual bill payload whose amount `"2.675"` parses to a double below
its decimal tie, separating Python's rounding from half-up rounding. -/
def c5_tie_bill : BillInput := ⟨"b2", "餐饮", .str "2.675", none, none, none⟩

/-- A valid manual bill payload with the optional date omitted. -/
def c7_bill : BillInput := ⟨"b7", "餐饮", .str "10", none, none, none⟩

/-- A manual bill payload carrying an impossible calendar date. -/
def c7_bad_date_bill : BillInput := ⟨"b8", "餐饮", .str "10", some "2024-13-01", none, none⟩

/-- A bill owned by user `A` (ownership scenario). -/
def billC9 : BillRow := ⟨"b1", "A", "餐饮", 10, some "2026-10-01", "", none⟩

/-- User `A`, holding the never-expiring token `"ta"`. -/
def userA : UserRow := ⟨"A", "a@x.com", "ph", some "ta", Expiry.null⟩

/-- User `B`, holding the never-expiring token `"tb"`. -/
def userB : UserRow := ⟨"B", "b@x.com", "ph", some "tb", Expiry.null⟩

/-- Store for the ownership scenario: one bill owned by `A`, two users. -/
def dbC9 : DB := ⟨[billC9], [userA, userB]⟩

/-- Successful `normalize_amount` results are rounded images of a strictly
positive parsed value. -/
theorem normalize_amount_some {a : AmountInput} {q : ℚ}
    (h : normalize_amount a = some q) : ∃ num : ℚ, 0 < num ∧ q = round2 num := by
  unfold normalize_amount at h
  rcases hp : parsedAmount a with _ | num
  · rw [hp] at h
    exact absurd h (by simp)
  · rw [hp] at h
    change (if num ≤ 0 then none else some (round2 num)) = some q at h
    by_cases hle : num ≤ 0
    · rw [if_pos hle] at h
      exact absurd h (by simp)
    · rw [if_neg hle] at h
      exact ⟨num, lt_of_not_le hle, (Option.some.inj h).symm⟩

/-- Case analysis of `manual_bill`: either every guard passed and the call
appended exactly the normalized row, or the call failed with a non-200
status, a non-ok body and an untouched store. -/
theorem manual_bill_spec (db : DB) (today uid : String) (b : BillInput) :
    (∃ amt, normalize_amount b.amount = some amt ∧
      manual_bill db today uid b =
        ⟨200, true, ⟨db.bills ++
          [⟨b.bill_id, uid, b.category, amt, b.date, b.description.getD "", b.nw_type⟩],
          db.users⟩⟩) ∨
    ((manual_bill db today uid b).db = db ∧
      ¬ (manual_bill db today uid b).http = 200 ∧
      (manual_bill db today uid b).body_ok = false) := by
  unfold manual_bill
  by_cases h1 : b.category = ""
  · rw [if_pos h1]
    exact Or.inr ⟨rfl, (by decide : ¬(400 : Nat) = 200), rfl⟩
  rw [if_neg h1]
  by_cases h2 : b.bill_id = ""
  · rw [if_pos h2]
    exact Or.inr ⟨rfl, (by decide : ¬(400 : Nat) = 200), rfl⟩
  rw [if_neg h2]
  by_cases h3 : ¬ dateFieldOk b.date
  · rw [if_pos h3]
    exact Or.inr ⟨rfl, (by decide : ¬(400 : Nat) = 200), rfl⟩
  rw [if_neg h3]
  by_cases h4 : ¬ nwTypeOk b.nw_type
  · rw [if_pos h4]
    exact Or.inr ⟨rfl, (by decide : ¬(400 : Nat) = 200), rfl⟩
  rw [if_neg h4]
  by_cases h5 : ¬ b.category = "" ∧ ¬ CATEGORIES = [] ∧ b.category ∉ CATEGORIES
  · rw [if_pos h5]
    exact Or.inr ⟨rfl, (by decide : ¬(400 : Nat) = 200), rfl⟩
  rw [if_neg h5]
  rcases hna : normalize_amount b.amount with _ | amt
  · exact Or.inr ⟨rfl, (by decide : ¬(400 : Nat) = 200), rfl⟩
  · unfold save_bill
    dsimp only
    rw [if_neg h2]
    by_cases hdup : (db.bills.any fun r => r.bill_id = b.bill_id) = true
    · rw [if_pos hdup]
      exact Or.inr ⟨rfl, (by decide : ¬(500 : Nat) = 200), rfl⟩
    · rw [if_neg hdup]
      exact Or.inl ⟨amt, rfl, rfl⟩

/-- Case analysis of the upload flow: either the token verified, the amount
computation succeeded and the call appended exactly the defaulted row, or
the call reported an error (401/400/exception envelope) and left the store
untouched. -/
theorem upload_flow_spec (db : DB) (tok bid : String) (parsed : ParseResult)
    (now : Nat) (today : String) :
    (∃ u amt, verify_token db tok now = some u ∧
      uploadAmount parsed.amount = some amt ∧
      upload_flow db tok bid parsed now today =
        ⟨200, true, ⟨db.bills ++
          [⟨bid, u.user_id, parsed.category.getD "其他支出", amt,
            some (parsed.date.getD today), parsed.description.getD "",
            parsed.nw_type⟩],
          db.users⟩⟩) ∨
    ((upload_flow db tok bid parsed now today).db = db ∧
      (upload_flow db tok bid parsed now today).body_ok = false) := by
  unfold upload_flow
  rcases hv : verify_token db tok now with _ | u
  · exact Or.inr ⟨rfl, rfl⟩
  · split_ifs with hb
    · exact Or.inr ⟨rfl, rfl⟩
    · rcases ha : uploadAmount parsed.amount with _ | amt
      · exact Or.inr ⟨rfl, rfl⟩
      · unfold save_bill
        dsimp only
        rw [if_neg hb]
        by_cases hdup : (db.bills.any fun r => r.bill_id = bid) = true
        · rw [if_pos hdup]
          exact Or.inr ⟨rfl, rfl⟩
        · rw [if_neg hdup]
          exact Or.inl ⟨u, amt, rfl, rfl, rfl⟩

/-- Successful upload amounts are rounded images of the parsed amount
string (with the `"0"` default when the field is absent). -/
theorem uploadAmount_some {f : Option String} {q : ℚ}
    (h : uploadAmount f = some q) :
    ∃ num : ℚ,
      parsePyFloat
        (pyReplace (pyReplace (pyReplace (f.getD "0") "," "") "￥" "") "RMB" "") =
        some num ∧ q = round2 num := by
  unfold uploadAmount at h
  rcases hp : parsePyFloat
      (pyReplace (pyReplace (pyReplace (f.getD "0") "," "") "￥" "") "RMB" "") with _ | num
  · rw [hp] at h
    exact absurd h (by simp)
  · rw [hp] at h
    exact ⟨num, rfl, (Option.some.inj h).symm⟩

/-- C1: one fixed, hard-coded token string is accepted by `verify_token` for
every store state and at every time, yielding the fixed `user_id "token"`
identity; the result never consults (and is independent of) the `users`
table. -/
theorem C1_hardcoded_token_always_valid (db : DB) (now : Nat) :
    verify_token db HARDCODED_TOKEN now =
      some ⟨"token", "token@test.com", Expiry.null⟩ := by
  unfold verify_token
  rw [if_pos rfl]

/-- C2 counterexample: on the empty store — whose `users` table is empty, so
no request-supplied token could possibly be valid, and whose `/manual_bill`
request carries no token field at all — manual bill creation succeeds and
mutates the stored bill state, refuting "no request lacking a valid token
ever changes stored bill state". -/
theorem C2_counterexample :
    dbEmpty.users = [] ∧
    (manual_bill dbEmpty "2026-10-12" "mallory" c2_bill).http = 200 ∧
    (manual_bill dbEmpty "2026-10-12" "mallory" c2_bill).db.bills =
      [⟨"c2", "mallory", "餐饮", 10, some "2026-10-01", "", none⟩] := by decide

/-- C2 amended: the three upload paths and bill deletion do require a token
accepted by `verify_token` (an invalid token gives 401 and no state
change), but manual bill creation performs no token check whatsoever — its
behaviour is entirely independent of the `users` table, so any caller
supplying a bare `user_id` string mutates bill state. -/
theorem C2_amended_mutation_auth :
    (∀ db tok bid parsed now today, verify_token db tok now = none →
        upload_flow db tok bid parsed now today = ⟨401, false, db⟩) ∧
    (∀ db tok bid now, verify_token db tok now = none →
        delete_bill_endpoint db tok bid now = ⟨401, false, db⟩) ∧
    (∀ bills us us' today uid b,
        (manual_bill ⟨bills, us⟩ today uid b).http =
          (manual_bill ⟨bills, us'⟩ today uid b).http ∧
        (manual_bill ⟨bills, us⟩ today uid b).db.bills =
          (manual_bill ⟨bills, us'⟩ today uid b).db.bills) := by
  refine ⟨?_, ?_, ?_⟩
  · intro db tok bid parsed now today h
    unfold upload_flow
    rw [h]
  · intro db tok bid now h
    unfold delete_bill_endpoint
    rw [h]
  · intro bills us us' today uid b
    unfold manual_bill
    by_cases h1 : b.category = ""
    · simp only [if_pos h1]
      exact ⟨trivial, trivial⟩
    simp only [if_neg h1]
    by_cases h2 : b.bill_id = ""
    · simp only [if_pos h2]
      exact ⟨trivial, trivial⟩
    simp only [if_neg h2]
    by_cases h3 : ¬ dateFieldOk b.date
    · simp only [if_pos h3]
      exact ⟨trivial, trivial⟩
    simp only [if_neg h3]
    by_cases h4 : ¬ nwTypeOk b.nw_type
    · simp only [if_pos h4]
      exact ⟨trivial, trivial⟩
    simp only [if_neg h4]
    by_cases h5 : ¬ b.category = "" ∧ ¬ CATEGORIES = [] ∧ b.category ∉ CATEGORIES
    · simp only [if_pos h5]
      exact ⟨trivial, trivial⟩
    simp only [if_neg h5]
    rcases hna : normalize_amount b.amount with _ | amt
    · exact ⟨rfl, rfl⟩
    · unfold save_bill
      dsimp only
      simp only [if_neg h2]
      by_cases hdup : (bills.any fun r => r.bill_id = b.bill_id) = true
      · simp only [if_pos hdup]
        exact ⟨trivial, trivial⟩
      · simp only [if_neg hdup]
        exact ⟨trivial, trivial⟩

/-- C2 amended, witness: a token unknown to the empty store is rejected by
the upload flow with 401 and no state change. -/
theorem C2_amended_witness :
    upload_flow dbEmpty "wrong" "b" (malformedParseResult "x") 0 "2026-10-12" =
      ⟨401, false, dbEmpty⟩ :=
  C2_amended_mutation_auth.1 dbEmpty "wrong" "b" (malformedParseResult "x") 0
    "2026-10-12" (by decide)

/-- C3 counterexample: the upload flow (here authenticated with the
hard-coded token on the empty store) performs no positivity check — a
parser amount of `"-5"` is stored as `-5`, refuting "every bill record ever
stored … has a strictly positive amount" and "on every path an input whose
amount is ≤ 0 … is rejected before storage". -/
theorem C3_counterexample :
    (upload_flow dbEmpty HARDCODED_TOKEN "c3" ⟨none, some "-5", none, none, none, none⟩
      0 "2026-10-12").body_ok = true ∧
    (upload_flow dbEmpty HARDCODED_TOKEN "c3" ⟨none, some "-5", none, none, none, none⟩
      0 "2026-10-12").db.bills =
      [⟨"c3", "token", "其他支出", mkRat (-5) 1, some "2026-10-12", "", none⟩] ∧
    ¬ (0 : ℚ) < mkRat (-5) 1 := by decide

/-- C3 amended: only the manual path rejects non-positive or non-numeric
amounts before storage (and a successful manual store is the 2-decimal
rounding of a positive parsed value — which itself can be `0.00` for inputs
below `0.005`); the upload paths apply the same 2-decimal rounding but no
sign check, so any parsed amount — including the `"0"` default used when
the field is absent and negative values — is stored, while a non-numeric
upload amount aborts the request with nothing stored. -/
theorem C3_amended_amount_normalization :
    (∀ q : ℚ, q ≤ 0 → normalize_amount (.num q) = none) ∧
    (∀ s : String, parsePyFloat (cleanAmountStr s) = none →
        normalize_amount (.str s) = none) ∧
    (∀ db today uid b, normalize_amount b.amount = none →
        (manual_bill db today uid b).db = db ∧
        ¬ (manual_bill db today uid b).http = 200) ∧
    (∀ db today uid b, (manual_bill db today uid b).http = 200 →
        ∃ num : ℚ, 0 < num ∧
          (manual_bill db today uid b).db.bills = db.bills ++
            [⟨b.bill_id, uid, b.category, round2 num, b.date,
              b.description.getD "", b.nw_type⟩]) ∧
    (∀ db tok bid parsed now today,
        (upload_flow db tok bid parsed now today).body_ok = true →
        ∃ (u : Identity) (num : ℚ), verify_token db tok now = some u ∧
          parsePyFloat (pyReplace (pyReplace (pyReplace (parsed.amount.getD "0")
              "," "") "￥" "") "RMB" "") = some num ∧
          (upload_flow db tok bid parsed now today).db.bills = db.bills ++
            [⟨bid, u.user_id, parsed.category.getD "其他支出", round2 num,
              some (parsed.date.getD today), parsed.description.getD "",
              parsed.nw_type⟩]) ∧
    (∀ db tok bid parsed now today, uploadAmount parsed.amount = none →
        (upload_flow db tok bid parsed now today).db = db) := by
  refine ⟨?_, ?_, ?_, ?_, ?_, ?_⟩
  · intro q hq
    show (match parsedAmount (.num q) with
      | none => none
      | some num => if num ≤ 0 then none else some (round2 num)) = none
    show (if q ≤ 0 then none else some (round2 q)) = none
    rw [if_pos hq]
  · intro s hp
    unfold normalize_amount
    rw [show parsedAmount (.str s) = none from hp]
  · intro db today uid b h
    rcases manual_bill_spec db today uid b with ⟨amt, hamt, _⟩ | ⟨hdb, hh, _⟩
    · rw [h] at hamt
      exact absurd hamt (by simp)
    · exact ⟨hdb, hh⟩
  · intro db today uid b h200
    rcases manual_bill_spec db today uid b with ⟨amt, hamt, heq⟩ | ⟨_, hh, _⟩
    · rcases normalize_amount_some hamt with ⟨num, hpos, hround⟩
      exact ⟨num, hpos, by rw [heq, ← hround]⟩
    · exact absurd h200 hh
  · intro db tok bid parsed now today hok
    rcases upload_flow_spec db tok bid parsed now today with
      ⟨u, amt, hu, hamt, heq⟩ | ⟨_, hbody⟩
    · rcases uploadAmount_some hamt with ⟨num, hnum, hround⟩
      exact ⟨u, num, hu, hnum, by rw [heq, ← hround]⟩
    · rw [hbody] at hok
      exact absurd hok (by simp)
  · intro db tok bid parsed now today hnone
    rcases upload_flow_spec db tok bid parsed now today with
      ⟨u, amt, _, hamt, _⟩ | ⟨hdb, _⟩
    · rw [hnone] at hamt
      exact absurd hamt (by simp)
    · exact hdb

/-- C3 amended, witness: a zero manual amount is rejected. -/
theorem C3_amended_witness : normalize_amount (.num 0) = none :=
  C3_amended_amount_normalization.1 0 (le_refl 0)

/-- C4 counterexample: submitting the same valid bill twice leaves the
store unchanged, but the second call answers HTTP 500 (the generic
`except Exception` handler), not a 400/409 conflict response — the
uniqueness violation is mapped to an internal error, refuting "mapped to
ConflictError, not to an internal error". -/
theorem C4_counterexample :
    (manual_bill (manual_bill dbEmpty "2026-10-12" "alice" c4_bill).db
      "2026-10-12" "alice" c4_bill).http = 500 ∧
    ¬ (manual_bill (manual_bill dbEmpty "2026-10-12" "alice" c4_bill).db
      "2026-10-12" "alice" c4_bill).http = 400 ∧
    ¬ (manual_bill (manual_bill dbEmpty "2026-10-12" "alice" c4_bill).db
      "2026-10-12" "alice" c4_bill).http = 409 ∧
    (manual_bill (manual_bill dbEmpty "2026-10-12" "alice" c4_bill).db
      "2026-10-12" "alice" c4_bill).db =
      (manual_bill dbEmpty "2026-10-12" "alice" c4_bill).db := by decide

/-- C4 amended: a second submission of a valid bill whose `bill_id` is
already stored does fail and leaves the stored record unchanged, but the
storage-level uniqueness violation surfaces as HTTP 500 (internal error),
not as a 400/409-class `ConflictError`. -/
theorem C4_amended_duplicate_maps_to_500 (db : DB) (today uid : String)
    (b : BillInput)
    (hdup : (db.bills.any fun r => r.bill_id = b.bill_id) = true)
    (hcat : ¬ b.category = "") (hbid : ¬ b.bill_id = "")
    (hdate : dateFieldOk b.date = true) (hnw : nwTypeOk b.nw_type = true)
    (hwl : b.category ∈ CATEGORIES)
    (hamt : (normalize_amount b.amount).isSome = true) :
    manual_bill db today uid b = ⟨500, false, db⟩ := by
  unfold manual_bill
  rw [if_neg hcat, if_neg hbid, if_neg (not_not_intro hdate),
    if_neg (not_not_intro hnw),
    if_neg (fun h : _ ∧ _ ∧ b.category ∉ CATEGORIES => h.2.2 hwl)]
  rcases hna : normalize_amount b.amount with _ | amt
  · rw [hna] at hamt
    exact absurd hamt (by simp)
  · unfold save_bill
    dsimp only
    rw [if_neg hbid, if_pos hdup]

/-- C4 amended, witness: the duplicate second submission on a one-bill
store answers 500 with the store unchanged. -/
theorem C4_amended_witness :
    manual_bill ⟨[⟨"c4", "alice", "购物", 5, some "2026-10-02", "desc", none⟩], []⟩
      "2026-10-12" "alice" c4_bill =
      ⟨500, false, ⟨[⟨"c4", "alice", "购物", 5, some "2026-10-02", "desc", none⟩], []⟩⟩ :=
  C4_amended_duplicate_maps_to_500
    ⟨[⟨"c4", "alice", "购物", 5, some "2026-10-02", "desc", none⟩], []⟩
    "2026-10-12" "alice" c4_bill (by decide) (by decide) (by decide) (by decide)
    (by decide) (by decide) (by decide)

/-- C5 counterexample: the claim's general rule — stored amount equals the
input rounded half-up — fails at amount `"2.675"`: its double lies below
the decimal tie, so Python's correctly-rounded `round` stores `2.67` while
half-up rounding of `2.675` gives `2.68`.  (The claim's particular
`"12.345"` scenario does hold of the code — that double lies above its
tie — see the amended theorem.) -/
theorem C5_counterexample :
    normalize_amount (.str "2.675") = some (mkRat 267 100) ∧
    (manual_bill dbEmpty "2026-10-12" "alice" c5_tie_bill).db.bills.map
      BillRow.amount = [mkRat 267 100] ∧
    roundHalfUp2 (mkRat 2675 1000) = mkRat 268 100 ∧
    ¬ mkRat 267 100 = mkRat 268 100 := by decide

/-- C5 amended: a successful manual submission stores the amount rounded
to two decimals by Python's `round` — correctly-rounded half-even on the
parsed double's exact value, not half-up.  At `"12.345"` the double lies
above the decimal tie, so `12.35` is stored, exactly as the claim's §8
scenario says; but at `"2.675"` the double lies below its tie and `2.67`
is stored where half-up rounding would give `2.68`. -/
theorem C5_amended_round_is_python_round (db : DB) (today uid : String)
    (b : BillInput) :
    (b.amount = .str "12.345" → (manual_bill db today uid b).http = 200 →
      (manual_bill db today uid b).db.bills = db.bills ++
        [⟨b.bill_id, uid, b.category, mkRat 1235 100, b.date,
          b.description.getD "", b.nw_type⟩]) ∧
    (b.amount = .str "2.675" → (manual_bill db today uid b).http = 200 →
      (manual_bill db today uid b).db.bills = db.bills ++
        [⟨b.bill_id, uid, b.category, mkRat 267 100, b.date,
          b.description.getD "", b.nw_type⟩]) := by
  constructor
  · intro hamt h200
    rcases manual_bill_spec db today uid b with ⟨amt, hna, heq⟩ | ⟨_, hh, _⟩
    · rw [hamt] at hna
      have h12 : normalize_amount (.str "12.345") = some (mkRat 1235 100) := by
        decide
      rw [h12] at hna
      rw [heq, Option.some.inj hna]
    · exact absurd h200 hh
  · intro hamt h200
    rcases manual_bill_spec db today uid b with ⟨amt, hna, heq⟩ | ⟨_, hh, _⟩
    · rw [hamt] at hna
      have h26 : normalize_amount (.str "2.675") = some (mkRat 267 100) := by
        decide
      rw [h26] at hna
      rw [heq, Option.some.inj hna]
    · exact absurd h200 hh

/-- C5 amended, witness: the concrete §8 scenario run stores `12.35`. -/
theorem C5_amended_witness :
    (manual_bill dbEmpty "2026-10-12" "alice" c5_bill).db.bills = [] ++
      [⟨"b1", "alice", "餐饮", mkRat 1235 100, none, "", none⟩] :=
  (C5_amended_round_is_python_round dbEmpty "2026-10-12" "alice" c5_bill).1 rfl
    (by decide)

/-- C6 counterexample: after a malformed parser response (modelled by the
`{"raw": text}` fallback object), the upload flow does NOT fail any
required-field check — it substitutes the `.get` defaults and stores a bill
(category `其他支出`, amount `0`, today's date), refuting "no bill record is
stored from a malformed parser response". -/
theorem C6_counterexample :
    (upload_flow dbEmpty HARDCODED_TOKEN "c6" (malformedParseResult "not json")
      0 "2026-10-12").body_ok = true ∧
    (upload_flow dbEmpty HARDCODED_TOKEN "c6" (malformedParseResult "not json")
      0 "2026-10-12").db.bills =
      [⟨"c6", "token", "其他支出", 0, some "2026-10-12", "", none⟩] := by decide

/-- C6 amended: when a parser backend's response is not well-formed, the
raw text is preserved for diagnostics and the field set is empty, but no
downstream required-field check exists: the upload flow fills every field
with its `.get` default (category `其他支出`, amount `"0"` hence `0.00`,
today's date, empty description) and stores that bill record. -/
theorem C6_amended_malformed_parse_stores_defaults (db : DB)
    (tok bid txt today : String) (now : Nat) (u : Identity)
    (htok : verify_token db tok now = some u)
    (hbid : ¬ bid = "")
    (hdup : (db.bills.any fun r => r.bill_id = bid) = false) :
    (malformedParseResult txt).raw = some txt ∧
    upload_flow db tok bid (malformedParseResult txt) now today =
      ⟨200, true, ⟨db.bills ++ [⟨bid, u.user_id, "其他支出", 0, some today, "", none⟩],
        db.users⟩⟩ := by
  refine ⟨rfl, ?_⟩
  unfold upload_flow
  rw [htok]
  dsimp only
  rw [if_neg hbid]
  have ha : uploadAmount (malformedParseResult txt).amount = some 0 := by
    show uploadAmount none = some 0
    decide
  rw [ha]
  dsimp only
  unfold save_bill
  rw [if_neg hbid, hdup]
  rfl

/-- C6 amended, witness: the concrete malformed-response upload on the
empty store keeps the raw text and stores the all-defaults bill. -/
theorem C6_amended_witness :
    (malformedParseResult "oops").raw = some "oops" ∧
    upload_flow dbEmpty HARDCODED_TOKEN "c6w" (malformedParseResult "oops") 0
      "2026-10-12" =
      ⟨200, true, ⟨[⟨"c6w", "token", "其他支出", 0, some "2026-10-12", "", none⟩], []⟩⟩ :=
  C6_amended_malformed_parse_stores_defaults dbEmpty HARDCODED_TOKEN "c6w" "oops"
    "2026-10-12" 0 ⟨"token", "token@test.com", Expiry.null⟩ (by decide) (by decide)
    (by decide)

/-- C7: the code contradicts its own comment (`interface/app.py:287`
"如果为None，save_bill会使用当前日期" — if None, `save_bill` will use the
current date) and `save_bill`'s intended default: a manual submission that
omits the date stores SQL `NULL`, not the ingestion day, because the `date`
key is present (with value `None`) in the dict `manual_bill` builds, so
`bill_data.get("date", today)` never falls back to its default.  An
impossible supplied date is rejected with 400, and `save_bill`'s default
does engage when the key is absent — exactly the behaviour the claim
describes — which pins the defect to the `manual_bill` dict construction. -/
theorem C7_omitted_date_stored_as_null :
    (manual_bill dbEmpty "2026-10-12" "alice" c7_bill).http = 200 ∧
    (manual_bill dbEmpty "2026-10-12" "alice" c7_bill).db.bills.map
      BillRow.date = [none] ∧
    ¬ (manual_bill dbEmpty "2026-10-12" "alice" c7_bill).db.bills.map
      BillRow.date = [some "2026-10-12"] ∧
    billDateStr none "2026-10-12" = some "2026-10-12" ∧
    (manual_bill dbEmpty "2026-10-12" "alice" c7_bad_date_bill).http = 400 ∧
    (manual_bill dbEmpty "2026-10-12" "alice" c7_bad_date_bill).db = dbEmpty := by
  decide

/-- Evaluation of `verify_token` once the row fetched for the token is
known: the result depends only on that row's expiry cell. -/
theorem verify_token_found (db : DB) (tk : String) (row : UserRow)
    (hhc : ¬ tk = HARDCODED_TOKEN)
    (hrow : (db.users.find? fun u => u.token = some tk) = some row) (now : Nat) :
    verify_token db tk now =
      match row.token_expires_at with
      | .null => some ⟨row.user_id, row.email, .null⟩
      | .emptyStr => some ⟨row.user_id, row.email, .emptyStr⟩
      | .stamp texp =>
        if now > texp then none else some ⟨row.user_id, row.email, .stamp texp⟩
      | .malformed _ => none := by
  unfold verify_token
  rw [if_neg hhc, hrow]

/-- After `save_user_token` for an existing user whose new token collides
with no other user's stored token, the row fetched for that token is the
user's updated row: token overwritten, expiry stamped 30 days out. -/
theorem save_user_token_find (db : DB) (uid tk : String) (t : Nat)
    (hex : (db.users.any fun u => u.user_id = uid) = true)
    (hfresh : ∀ u ∈ db.users, ¬ u.user_id = uid → ¬ u.token = some tk) :
    ∃ row, ((save_user_token db uid tk 30 t).2.users.find?
        fun u => u.token = some tk) = some row ∧
      row.user_id = uid ∧ row.token_expires_at = Expiry.stamp (t + 30 * 86400) := by
  have husers : (save_user_token db uid tk 30 t).2.users = db.users.map (fun u =>
      if u.user_id = uid then
        { u with token := some tk, token_expires_at := Expiry.stamp (t + 30 * 86400) }
      else u) := rfl
  rw [husers]
  rcases List.any_eq_true.mp hex with ⟨v, hv, hvp⟩
  have hvid : v.user_id = uid := of_decide_eq_true hvp
  obtain ⟨row, hrow⟩ : ∃ row, ((db.users.map (fun u =>
      if u.user_id = uid then
        { u with token := some tk, token_expires_at := Expiry.stamp (t + 30 * 86400) }
      else u)).find? fun u => u.token = some tk) = some row := by
    apply Option.isSome_iff_exists.mp
    apply List.find?_isSome.mpr
    refine ⟨(fun u => if u.user_id = uid then
        { u with token := some tk, token_expires_at := Expiry.stamp (t + 30 * 86400) }
      else u) v, List.mem_map_of_mem _ hv, ?_⟩
    simp [hvid]
  refine ⟨row, hrow, ?_⟩
  rcases List.mem_map.mp (List.mem_of_find?_eq_some hrow) with ⟨w, hw, hfw⟩
  have htokrow : row.token = some tk := by
    have hpred := List.find?_some hrow
    simpa using hpred
  by_cases hwid : w.user_id = uid
  · rw [if_pos hwid] at hfw
    rw [← hfw]
    exact ⟨hwid, rfl⟩
  · rw [if_neg hwid] at hfw
    rw [← hfw] at htokrow
    exact absurd htokrow (hfresh w hw hwid)

/-- C8: issuing a token (as `/login` does via `save_user_token(user_id,
token, expires_in_days=30)`) to an existing user stamps the expiry exactly
30 days after issuance and overwrites any prior token on every row of that
user; `verify_token` then accepts the token exactly while `now` has not
exceeded the expiry — valid at any instant up to and including
`t + 30 days`, `None` the instant `now` exceeds it.  The side conditions
say the issued token is not the hard-coded literal and collides with no
other user's stored token, as expected of a fresh 256-bit random token. -/
theorem C8_token_lifecycle (db : DB) (uid tk : String) (t : Nat)
    (hhc : ¬ tk = HARDCODED_TOKEN)
    (hex : (db.users.any fun u => u.user_id = uid) = true)
    (hfresh : ∀ u ∈ db.users, ¬ u.user_id = uid → ¬ u.token = some tk) :
    (save_user_token db uid tk 30 t).1 = true ∧
    (∀ u ∈ (save_user_token db uid tk 30 t).2.users, u.user_id = uid →
        u.token = some tk ∧ u.token_expires_at = Expiry.stamp (t + 30 * 86400)) ∧
    (∀ now, now ≤ t + 30 * 86400 →
        ∃ id, verify_token (save_user_token db uid tk 30 t).2 tk now = some id ∧
          id.user_id = uid) ∧
    (∀ now, t + 30 * 86400 < now →
        verify_token (save_user_token db uid tk 30 t).2 tk now = none) := by
  obtain ⟨row, hrow, hrid, hrexp⟩ := save_user_token_find db uid tk t hex hfresh
  refine ⟨hex, ?_, ?_, ?_⟩
  · intro u hu huid
    rcases List.mem_map.mp hu with ⟨v, hv, hfv⟩
    by_cases hvid : v.user_id = uid
    · rw [if_pos hvid] at hfv
      rw [← hfv]
      exact ⟨rfl, rfl⟩
    · rw [if_neg hvid] at hfv
      rw [← hfv] at huid
      exact absurd huid hvid
  · intro now hle
    have hv := verify_token_found (save_user_token db uid tk 30 t).2 tk row hhc
      hrow now
    rw [hrexp] at hv
    refine ⟨⟨row.user_id, row.email, Expiry.stamp (t + 30 * 86400)⟩, ?_, hrid⟩
    rw [hv]
    dsimp only
    rw [if_neg (by omega : ¬ now > t + 30 * 86400)]
  · intro now hgt
    have hv := verify_token_found (save_user_token db uid tk 30 t).2 tk row hhc
      hrow now
    rw [hrexp] at hv
    rw [hv]
    dsimp only
    rw [if_pos (show now > t + 30 * 86400 from hgt)]

/-- C8 witness: a token issued at second 0 to the sole stored user is valid
at the final second of its 30-day lifetime and invalid one second later. -/
theorem C8_witness :
    (save_user_token ⟨[], [⟨"u1", "a@x.com", "ph", none, Expiry.null⟩]⟩
      "u1" "tok1" 30 0).1 = true ∧
    (∃ id, verify_token (save_user_token ⟨[], [⟨"u1", "a@x.com", "ph", none,
      Expiry.null⟩]⟩ "u1" "tok1" 30 0).2 "tok1" 2592000 = some id ∧
      id.user_id = "u1") ∧
    verify_token (save_user_token ⟨[], [⟨"u1", "a@x.com", "ph", none,
      Expiry.null⟩]⟩ "u1" "tok1" 30 0).2 "tok1" 2592001 = none := by
  have h := C8_token_lifecycle ⟨[], [⟨"u1", "a@x.com", "ph", none, Expiry.null⟩]⟩
    "u1" "tok1" 0 (by decide) (by decide) (by decide)
  exact ⟨h.1, h.2.2.1 2592000 (by omega), h.2.2.2 2592001 (by omega)⟩

/-- C9: deleting a bill owned by `A` while authenticated with `B`'s valid
token fails with 403 and leaves the store untouched (the bill remains
stored); the same request authenticated as `A` succeeds, and the bill is
gone from the store, so a subsequent lookup of that `bill_id` finds
nothing (the endpoint would answer 404). -/
theorem C9_delete_ownership (db : DB) (tokenA tokenB billId : String)
    (now : Nat) (idA idB : Identity) (bill : BillRow)
    (hA : verify_token db tokenA now = some idA)
    (hB : verify_token db tokenB now = some idB)
    (hbill : get_bill_by_id db billId = some bill)
    (hown : bill.user_id = idA.user_id)
    (hne : ¬ idB.user_id = idA.user_id) :
    delete_bill_endpoint db tokenB billId now = ⟨403, false, db⟩ ∧
    delete_bill_endpoint db tokenA billId now =
      ⟨200, true, ⟨db.bills.filter (fun r => ¬ r.bill_id = billId), db.users⟩⟩ ∧
    get_bill_by_id (delete_bill_endpoint db tokenA billId now).db billId =
      none := by
  have hb' : (db.bills.find? fun r => r.bill_id = billId) = some bill := hbill
  have hpred : bill.bill_id = billId := by
    have := List.find?_some hb'
    simpa using this
  have hany : (db.bills.any fun r => r.bill_id = billId) = true :=
    List.any_eq_true.mpr
      ⟨bill, List.mem_of_find?_eq_some hb', decide_eq_true hpred⟩
  have h403 : delete_bill_endpoint db tokenB billId now = ⟨403, false, db⟩ := by
    unfold delete_bill_endpoint
    rw [hB]
    dsimp only
    rw [hbill]
    dsimp only
    rw [if_pos (show ¬ bill.user_id = idB.user_id from
      fun h => hne (h.symm.trans hown))]
  have h200 : delete_bill_endpoint db tokenA billId now =
      ⟨200, true, ⟨db.bills.filter (fun r => ¬ r.bill_id = billId), db.users⟩⟩ := by
    unfold delete_bill_endpoint
    rw [hA]
    dsimp only
    rw [hbill]
    dsimp only
    rw [if_neg (not_not_intro hown)]
    rw [if_pos (show (delete_bill db billId).1 = true from hany)]
    rfl
  have hgone : get_bill_by_id
      ⟨db.bills.filter (fun r => ¬ r.bill_id = billId), db.users⟩ billId = none := by
    unfold get_bill_by_id
    apply List.find?_eq_none.mpr
    intro x hx
    have hxne : ¬ x.bill_id = billId :=
      of_decide_eq_true (List.mem_filter.mp hx).2
    simp [hxne]
  exact ⟨h403, h200, by rw [h200]; exact hgone⟩

/-- C9 witness: on the two-user store with one bill owned by `A`, the
delete authenticated as `B` answers 403 with the store intact, the delete
authenticated as `A` succeeds, and the bill is no longer found. -/
theorem C9_witness :
    delete_bill_endpoint dbC9 "tb" "b1" 0 = ⟨403, false, dbC9⟩ ∧
    delete_bill_endpoint dbC9 "ta" "b1" 0 =
      ⟨200, true, ⟨dbC9.bills.filter (fun r => ¬ r.bill_id = "b1"), dbC9.users⟩⟩ ∧
    get_bill_by_id (delete_bill_endpoint dbC9 "ta" "b1" 0).db "b1" = none :=
  C9_delete_ownership dbC9 "ta" "tb" "b1" 0 ⟨"A", "a@x.com", Expiry.null⟩
    ⟨"B", "b@x.com", Expiry.null⟩ billC9 (by decide) (by decide) (by decide)
    (by decide) (by decide)

/-- C10: for a stored user row whose `token_expires_at` cell is SQL `NULL`
or the empty string, `verify_token` on that user's stored token succeeds at
every time with that user's identity — the expiry comparison only runs when
the cell is non-empty (`if token_expires_at:`), so such a token never
expires. -/
theorem C10_null_or_empty_expiry_never_expires (db : DB) (tk : String)
    (u : UserRow)
    (hhc : ¬ tk = HARDCODED_TOKEN)
    (hfind : (db.users.find? fun r => r.token = some tk) = some u)
    (hexp : u.token_expires_at = Expiry.null ∨
      u.token_expires_at = Expiry.emptyStr) :
    ∀ now : Nat, verify_token db tk now =
      some ⟨u.user_id, u.email, u.token_expires_at⟩ := by
  intro now
  have hv := verify_token_found db tk u hhc hfind now
  rcases hexp with h | h
  · rw [hv, h]
  · rw [hv, h]

/-- C10 witness: a stored token whose expiry cell is `NULL` verifies even
at an arbitrarily late time. -/
theorem C10_witness :
    verify_token ⟨[], [⟨"u1", "a@x.com", "ph", some "tok", Expiry.null⟩]⟩ "tok"
      99999999999 = some ⟨"u1", "a@x.com", Expiry.null⟩ :=
  C10_null_or_empty_expiry_never_expires
    ⟨[], [⟨"u1", "a@x.com", "ph", some "tok", Expiry.null⟩]⟩ "tok"
    ⟨"u1", "a@x.com", "ph", some "tok", Expiry.null⟩ (by decide) (by decide)
    (Or.inl rfl) 99999999999

end SmartLedger
